import Mathlib

/-!
A verification development for the sonobe example circuit
(`folding-schemes/examples/external_inputs.rs`) and the solidity-verifiers
CLI settings (`cli/src/settings.rs`).

The field type `F`, the Poseidon configuration `Config` and the external
Poseidon CRH (native `crh` and in-circuit `crhGadget` value semantics) are
kept abstract: they are external primitives consumed by the code under
inspection.  A Rust computation is embedded with its three possible
outcomes: returning `Ok`, returning `Err`, or aborting (an out-of-bounds
index or an `unwrap()` on a failed call).
-/

namespace Sonobe

/-- Outcome of running a piece of Rust code: `ok v` for `Ok(v)`, `err` for
`Err(_)` (the error payload is an opaque external type and is not modelled),
and `panic` for an abort — an out-of-bounds index or `unwrap()` on `Err`. -/
inductive StepResult (α : Type) where
  | ok : α → StepResult α
  | err : StepResult α
  | panic : StepResult α
deriving DecidableEq, Repr

/-- `ExternalInputsCircuits<F>`: the example `FCircuit` instance; it owns the
Poseidon configuration (`Params = PoseidonConfig<F>`). -/
structure ExternalInputsCircuits (Config : Type) where
  poseidon_config : Config
deriving DecidableEq, Repr

namespace ExternalInputsCircuits

/-- `FCircuit::new(params)`: stores the Poseidon configuration. -/
def new {Config : Type} (params : Config) : ExternalInputsCircuits Config :=
  ⟨params⟩

/-- `FCircuit::state_len(&self)`: the constant 2. -/
def state_len {Config : Type} (_self : ExternalInputsCircuits Config) : Nat :=
  2

/-- `FCircuit::step_native(&self, z_i)`.  `crh` is the external
`CRH::<F>::evaluate` over a Poseidon configuration; the Rust code reads
`z_i[0]` and `z_i[1]` (aborting when out of bounds), hashes them, `unwrap()`s
the result (aborting on `Err`) and returns `Ok(vec![out, 0])`. -/
def step_native {F Config : Type} [Zero F] (crh : Config → F → F → Option F)
    (self : ExternalInputsCircuits Config) (z_i : List F) :
    StepResult (List F) :=
  match z_i[0]?, z_i[1]? with
  | some a, some b =>
    match crh self.poseidon_config a b with
    | some out => .ok [out, 0]
    | none => .panic
  | _, _ => .panic

/-- `FCircuit::generate_step_constraints(&self, cs, z_i)`, at the level of
assigned witness values.  `newConst` is `CRHParametersVar::new_constant`
(allocating the configuration as a circuit constant; its failure propagates
with `?` as `Err`), `crhGadget` is the value semantics of
`CRHGadget::<F>::evaluate` under a full witness assignment (its failure also
propagates with `?`).  The Rust code reads `z_i[0]` and `z_i[1]` (aborting
when out of bounds) and returns `Ok(vec![out, FpVar::zero()])`. -/
def generate_step_constraints {F Config : Type} [Zero F]
    (newConst : Config → Option Config) (crhGadget : Config → F → F → Option F)
    (self : ExternalInputsCircuits Config) (z_i : List F) :
    StepResult (List F) :=
  match newConst self.poseidon_config with
  | none => .err
  | some crh_params =>
    match z_i[0]?, z_i[1]? with
    | some a, some b =>
      match crhGadget crh_params a b with
      | some out => .ok [out, 0]
      | none => .err
    | _, _ => .panic

end ExternalInputsCircuits

/-- Iterated application of `step_native`: `iterate_step_native crh self n z`
is the result of `n` successive native steps from `z`, propagating `Err` and
aborts.  Used to state what "n iterations of `step_native`" means. -/
def iterate_step_native {F Config : Type} [Zero F]
    (crh : Config → F → F → Option F) (self : ExternalInputsCircuits Config) :
    Nat → List F → StepResult (List F)
  | 0, z => .ok z
  | n + 1, z =>
    match ExternalInputsCircuits.step_native crh self z with
    | .ok z' => iterate_step_native crh self n z'
    | .err => .err
    | .panic => .panic

/-- Modelled from the spec: the accumulator snapshot returned by
`FoldingScheme::instances()` (the running / incoming / CycleFold instance
triple of the `folding-schemes` crate, which is not among the examined
sources).  Per the spec it is opaque algebraic state that, when honestly
produced, binds the initial state, the current state and the monotonic step
counter of the run; `verify` "fails on any mismatch". -/
structure NovaInstances (F : Type) where
  z0 : List F
  zi : List F
  i : Nat
deriving DecidableEq, Repr

/-- Modelled from the spec: the IVC session (`Nova::init` and the mutable
folding-scheme state of the `folding-schemes` crate, not among the examined
sources).  It owns the initial state `z0`, the running state `zi` and the
step counter `i`. -/
structure IVCSession (F : Type) where
  z0 : List F
  zi : List F
  i : Nat
deriving DecidableEq, Repr

namespace IVCSession

/-- Modelled from the spec: `Nova::init(pp, F_circuit, initial_state)` —
enters the Ready state with a zeroed accumulator, running state equal to the
initial state and step counter 0. -/
def init {F : Type} (initial_state : List F) : IVCSession F :=
  ⟨initial_state, initial_state, 0⟩

/-- Modelled from the spec: `FoldingScheme::prove_step()` (an `advance`) —
computes the next state via the contract's `step_native`, folds the step into
the accumulator, replaces the current state and increments the counter;
fails if the step computation fails. -/
def prove_step {F Config : Type} [Zero F] (crh : Config → F → F → Option F)
    (self : ExternalInputsCircuits Config) (s : IVCSession F) :
    StepResult (IVCSession F) :=
  match ExternalInputsCircuits.step_native crh self s.zi with
  | .ok z' => .ok ⟨s.z0, z', s.i + 1⟩
  | .err => .err
  | .panic => .panic

/-- `n` successive `prove_step` calls, as the `main` driver loop performs. -/
def prove_steps {F Config : Type} [Zero F] (crh : Config → F → F → Option F)
    (self : ExternalInputsCircuits Config) :
    Nat → IVCSession F → StepResult (IVCSession F)
  | 0, s => .ok s
  | n + 1, s =>
    match prove_step crh self s with
    | .ok s' => prove_steps crh self n s'
    | .err => .err
    | .panic => .panic

/-- Modelled from the spec: `FoldingScheme::state()` — a read-only snapshot
of the running state. -/
def state {F : Type} (s : IVCSession F) : List F :=
  s.zi

/-- Modelled from the spec: `FoldingScheme::instances()` — a read-only
snapshot of the accumulator for external verification. -/
def instances {F : Type} (s : IVCSession F) : NovaInstances F :=
  ⟨s.z0, s.zi, s.i⟩

end IVCSession

/-- Modelled from the spec: `Nova::verify(vp, initial_state,
claimed_final_state, claimed_step_count, instances...)` of the
`folding-schemes` crate (not among the examined sources).  Per the spec it
is independent of any live session, "fails on any mismatch" and "never
partially succeeds": against an honestly produced instance snapshot it
succeeds exactly when the claimed initial state, claimed final state and
claimed step count all match what the snapshot binds. -/
def Nova_verify {F : Type} [DecidableEq F] (initial_state claimed_final : List F)
    (claimed_step_count : Nat) (inst : NovaInstances F) : Bool :=
  decide (inst.z0 = initial_state) && decide (inst.zi = claimed_final) &&
    decide (inst.i = claimed_step_count)

/-- The closed protocol selector enumeration of `cli/src/settings.rs`. -/
inductive Protocol where
  | Groth16 : Protocol
  | Kzg : Protocol
  | NovaCyclefold : Protocol
deriving DecidableEq, Repr

/-- The capability owned by each protocol-data type (`Groth16Data`,
`KzgData`, `NovaCyclefoldData` of the external `solidity_verifiers` crate):
`deserialize_protocol_data` (which may fail with a `SerializationError`,
modelled as `none`) and the infallible `render_as_template`. -/
structure ProtocolDataImpl (Bytes D : Type) where
  deserialize_protocol_data : Bytes → Option D
  render_as_template : D → Option String → Bytes

/-- `Protocol::render(&self, data, pragma)`: an exhaustive match on the
selector; each arm deserializes the input with the variant's own data type,
propagates a deserialization failure with `?`, and otherwise renders. -/
def Protocol.render {Bytes G K N : Type}
    (g16 : ProtocolDataImpl Bytes G) (kzg : ProtocolDataImpl Bytes K)
    (nova : ProtocolDataImpl Bytes N)
    (p : Protocol) (data : Bytes) (pragma : Option String) :
    StepResult Bytes :=
  match p with
  | .Groth16 =>
    match g16.deserialize_protocol_data data with
    | some d => .ok (g16.render_as_template d pragma)
    | none => .err
  | .Kzg =>
    match kzg.deserialize_protocol_data data with
    | some d => .ok (kzg.render_as_template d pragma)
    | none => .err
  | .NovaCyclefold =>
    match nova.deserialize_protocol_data data with
    | some d => .ok (nova.render_as_template d pragma)
    | none => .err

/-- Whether the deserializer selected by `p` accepts `data` (the input
matches the selected protocol's expected binary layout). -/
def Protocol.deser_ok {Bytes G K N : Type}
    (g16 : ProtocolDataImpl Bytes G) (kzg : ProtocolDataImpl Bytes K)
    (nova : ProtocolDataImpl Bytes N) (p : Protocol) (data : Bytes) : Prop :=
  match p with
  | .Groth16 => (g16.deserialize_protocol_data data).isSome = true
  | .Kzg => (kzg.deserialize_protocol_data data).isSome = true
  | .NovaCyclefold => (nova.deserialize_protocol_data data).isSome = true

/-- `get_default_out_path()`: takes the current working directory (a path,
modelled as its list of components, supplied here as an argument since
`env::current_dir()` is ambient) and pushes the single relative component
`"verifier.sol"` onto it. -/
def get_default_out_path (current_dir : List String) : List String :=
  current_dir ++ ["verifier.sol"]

/-- The clap resolution of the `out` argument of `Cli`: the value supplied on
the command line when present, otherwise the declared default, which
`settings.rs` sets to `get_default_out_path()`. -/
def cli_out (current_dir : List String) (supplied : Option (List String)) :
    List String :=
  supplied.getD (get_default_out_path current_dir)

/-- Inversion for `step_native`: producing `Ok v` forces `z` to have first
and second elements, the hash on them to succeed, and `v` to be the pair of
the hash output and zero. -/
lemma step_native_eq_ok {F Config : Type} [Zero F]
    (crh : Config → F → F → Option F) (self : ExternalInputsCircuits Config)
    (z v : List F)
    (h : ExternalInputsCircuits.step_native crh self z = .ok v) :
    ∃ a b out, z[0]? = some a ∧ z[1]? = some b ∧
      crh self.poseidon_config a b = some out ∧ v = [out, 0] := by
  rcases z with _ | ⟨a, _ | ⟨b, t⟩⟩
  · simp [ExternalInputsCircuits.step_native] at h
  · simp [ExternalInputsCircuits.step_native] at h
  rcases hc : crh self.poseidon_config a b with _ | out <;>
    simp [ExternalInputsCircuits.step_native, hc] at h
  exact ⟨a, b, out, by simp, by simp, hc, h.symm⟩

/-- On a length-2 input, a total hash makes `step_native` return `Ok` with a
length-2 output. -/
lemma step_native_ok_of_total {F Config : Type} [Zero F]
    (crh : Config → F → F → Option F) (self : ExternalInputsCircuits Config)
    (htotal : ∀ a b, (crh self.poseidon_config a b).isSome = true)
    (z : List F) (hz : z.length = 2) :
    ∃ v, ExternalInputsCircuits.step_native crh self z = .ok v ∧
      v.length = 2 := by
  match z, hz with
  | [a, b], _ =>
    rcases Option.isSome_iff_exists.mp (htotal a b) with ⟨out, hout⟩
    exact ⟨[out, 0], by simp [ExternalInputsCircuits.step_native, hout], rfl⟩

/-- C1.  For every valid state z of length L = 2, evaluating the circuit
step (`generate_step_constraints`) with z assigned as witness yields the
same output vector as the native step (`step_native`) applied to z — under
the external guarantees that allocating the Poseidon configuration as a
circuit constant succeeds and preserves it, and that the CRH gadget's value
semantics computes the native CRH. -/
theorem C1_circuit_refines_native {F Config : Type} [Zero F]
    (crh crhGadget : Config → F → F → Option F)
    (newConst : Config → Option Config)
    (self : ExternalInputsCircuits Config)
    (hconst : newConst self.poseidon_config = some self.poseidon_config)
    (hgadget : ∀ a b, crhGadget self.poseidon_config a b =
      crh self.poseidon_config a b)
    (z : List F) (_hz : z.length = 2) (v : List F)
    (hnative : ExternalInputsCircuits.step_native crh self z = .ok v) :
    ExternalInputsCircuits.generate_step_constraints newConst crhGadget self z
      = .ok v := by
  rcases step_native_eq_ok crh self z v hnative with
    ⟨a, b, out, h0, h1, hc, hv⟩
  subst hv
  simp [ExternalInputsCircuits.generate_step_constraints, hconst, h0, h1,
    hgadget, hc]

/-- Witness for C1 at a concrete instantiation. -/
theorem C1_circuit_refines_native_witness :
    ExternalInputsCircuits.generate_step_constraints (F := Nat) some
      (fun _ a b => some (a + b)) ⟨()⟩ [1, 2] = .ok [3, 0] :=
  C1_circuit_refines_native (fun _ a b => some (a + b))
    (fun _ a b => some (a + b)) some ⟨()⟩ rfl (fun _ _ => rfl)
    [1, 2] rfl [3, 0] rfl

/-- C2.  For every two-element state [v, pad], `step_native` returns exactly
[Hash(v, pad), 0]: the hash of both input elements followed by zero. -/
theorem C2_step_native_hash_then_zero {F Config : Type} [Zero F]
    (crh : Config → F → F → Option F) (self : ExternalInputsCircuits Config)
    (v pad h : F) (hhash : crh self.poseidon_config v pad = some h) :
    ExternalInputsCircuits.step_native crh self [v, pad] = .ok [h, 0] := by
  simp [ExternalInputsCircuits.step_native, hhash]

/-- Witness for C2 at a concrete instantiation. -/
theorem C2_step_native_hash_then_zero_witness :
    ExternalInputsCircuits.step_native (F := Nat)
      (fun _ a b => some (a * b + 1)) ⟨()⟩ [4, 5] = .ok [21, 0] :=
  C2_step_native_hash_then_zero (fun _ a b => some (a * b + 1)) ⟨()⟩
    4 5 21 rfl

/-- C3.  `state_len` is the constant 2 for every instance, and whenever
either step evaluation returns a vector on an input of length `state_len`,
that vector has exactly `state_len` elements. -/
theorem C3_length_invariant {F Config : Type} [Zero F] :
    (∀ self : ExternalInputsCircuits Config, self.state_len = 2) ∧
    (∀ (crh : Config → F → F → Option F)
      (self : ExternalInputsCircuits Config) (z v : List F),
      z.length = self.state_len →
      ExternalInputsCircuits.step_native crh self z = .ok v →
      v.length = self.state_len) ∧
    (∀ (newConst : Config → Option Config)
      (crhGadget : Config → F → F → Option F)
      (self : ExternalInputsCircuits Config) (z v : List F),
      z.length = self.state_len →
      ExternalInputsCircuits.generate_step_constraints newConst crhGadget
        self z = .ok v →
      v.length = self.state_len) := by
  refine ⟨fun _ => rfl, fun crh self z v _ h => ?_,
    fun newConst crhGadget self z v _ h => ?_⟩
  · rcases step_native_eq_ok crh self z v h with ⟨a, b, out, _, _, _, hv⟩
    subst hv; rfl
  · rcases hp : newConst self.poseidon_config with _ | params <;>
      rcases z with _ | ⟨a, _ | ⟨b, t⟩⟩ <;>
      simp [ExternalInputsCircuits.generate_step_constraints, hp] at h
    rcases hc : crhGadget params a b with _ | out <;> simp [hc] at h
    rw [← h]; rfl

/-- Witness for C3 at a concrete instantiation. -/
theorem C3_length_invariant_witness :
    ([3, 0] : List Nat).length =
      ExternalInputsCircuits.state_len (⟨()⟩ : ExternalInputsCircuits Unit) :=
  (C3_length_invariant).2.1 (fun _ a b => some (a + b)) ⟨()⟩ [1, 2] [3, 0]
    rfl rfl

/-- C4.  `step_native` is a pure function of its input (the embedding is a
mathematical function), and when the external hash is total it succeeds on
every input of the declared length 2: the failure branch is unreachable
under that precondition. -/
theorem C4_step_native_total_on_valid {F Config : Type} [Zero F]
    (crh : Config → F → F → Option F) (self : ExternalInputsCircuits Config)
    (htotal : ∀ a b, (crh self.poseidon_config a b).isSome = true) :
    ∀ z : List F, z.length = 2 →
      ∃ v, ExternalInputsCircuits.step_native crh self z = .ok v := by
  intro z hz
  rcases step_native_ok_of_total crh self htotal z hz with ⟨v, hv, _⟩
  exact ⟨v, hv⟩

/-- Witness for C4 at a concrete instantiation. -/
theorem C4_step_native_total_on_valid_witness :
    ∃ v, ExternalInputsCircuits.step_native (F := Nat)
      (fun _ a b => some (a + b)) ⟨()⟩ [7, 8] = .ok v :=
  C4_step_native_total_on_valid (fun _ a b => some (a + b)) ⟨()⟩
    (fun _ _ => rfl) [7, 8] rfl

/-- C5.  `step_native` is deterministic: two calls on the same contract
instance with identical inputs return identical outcomes. -/
theorem C5_step_native_deterministic {F Config : Type} [Zero F]
    (crh : Config → F → F → Option F)
    (self self' : ExternalInputsCircuits Config) (z z' : List F)
    (hself : self = self') (hz : z = z') :
    ExternalInputsCircuits.step_native crh self z =
      ExternalInputsCircuits.step_native crh self' z' := by
  rw [hself, hz]

/-- Witness for C5 at a concrete instantiation. -/
theorem C5_step_native_deterministic_witness :
    ExternalInputsCircuits.step_native (F := Nat)
      (fun _ a b => some (a + b)) ⟨()⟩ [1, 2] =
    ExternalInputsCircuits.step_native (fun _ a b => some (a + b)) ⟨()⟩
      [1, 2] :=
  C5_step_native_deterministic (fun _ a b => some (a + b)) ⟨()⟩ ⟨()⟩
    [1, 2] [1, 2] rfl rfl

/-- C9.  `step_native` never returns `Err`: on inputs of length < 2 it
aborts on an out-of-bounds index, and a failure of the underlying
permutation aborts through `unwrap()` instead of propagating as `Err`. -/
theorem C9_step_native_never_err {F Config : Type} [Zero F]
    (crh : Config → F → F → Option F) (self : ExternalInputsCircuits Config)
    (z : List F) :
    (ExternalInputsCircuits.step_native crh self z ≠ .err) ∧
    (z.length < 2 → ExternalInputsCircuits.step_native crh self z = .panic) ∧
    (∀ a b, z[0]? = some a → z[1]? = some b →
      crh self.poseidon_config a b = none →
      ExternalInputsCircuits.step_native crh self z = .panic) := by
  refine ⟨?_, ?_, ?_⟩
  · rcases z with _ | ⟨a, _ | ⟨b, t⟩⟩
    · simp [ExternalInputsCircuits.step_native]
    · simp [ExternalInputsCircuits.step_native]
    rcases hc : crh self.poseidon_config a b with _ | out <;>
      simp [ExternalInputsCircuits.step_native, hc]
  · intro hlen
    rcases z with _ | ⟨a, _ | ⟨b, t⟩⟩
    · simp [ExternalInputsCircuits.step_native]
    · simp [ExternalInputsCircuits.step_native]
    simp only [List.length_cons] at hlen
    omega
  · intro a b h0 h1 hc
    simp [ExternalInputsCircuits.step_native, h0, h1, hc]

/-- Witness for C9 at a concrete instantiation. -/
theorem C9_step_native_never_err_witness :
    ExternalInputsCircuits.step_native (F := Nat)
      (fun _ _ _ => (none : Option Nat)) ⟨()⟩ [1, 2] = .panic :=
  (C9_step_native_never_err (fun _ _ _ => none) ⟨()⟩ [1, 2]).2.2 1 2
    rfl rfl rfl

/-- A run of `n` `prove_step`s from a session whose running state has the
declared length succeeds when the hash is total, keeps the initial state,
advances the counter by `n`, and tracks `n` native iterations of the step. -/
lemma prove_steps_ok_of_total {F Config : Type} [Zero F]
    (crh : Config → F → F → Option F) (self : ExternalInputsCircuits Config)
    (htotal : ∀ a b, (crh self.poseidon_config a b).isSome = true) :
    ∀ (n : Nat) (s : IVCSession F), s.zi.length = 2 →
      ∃ s' : IVCSession F,
        IVCSession.prove_steps crh self n s = .ok s' ∧ s'.z0 = s.z0 ∧
        s'.i = s.i + n ∧ s'.zi.length = 2 ∧
        iterate_step_native crh self n s.zi = .ok s'.zi := by
  intro n
  induction n with
  | zero => exact fun s hs => ⟨s, rfl, rfl, rfl, hs, rfl⟩
  | succ m ih =>
    intro s hs
    rcases step_native_ok_of_total crh self htotal s.zi hs with ⟨z', hz', hlen⟩
    rcases ih ⟨s.z0, z', s.i + 1⟩ hlen with ⟨s', hrun, hz0, hi, hslen, hiter⟩
    refine ⟨s', ?_, hz0, by rw [hi]; dsimp only; omega, hslen, ?_⟩
    · rw [IVCSession.prove_steps, IVCSession.prove_step, hz']
      exact hrun
    · rw [iterate_step_native, hz']
      exact hiter

/-- C6.  With zero advances performed, `verify` with claimed step count 0
succeeds exactly when the claimed final state equals the initial state; in
particular it succeeds for initial state [1, 0] and claimed final state
[1, 0]. -/
theorem C6_zero_step_verify {F : Type} [DecidableEq F] [Zero F] [One F] :
    (∀ z0 claimed : List F,
      Nova_verify z0 claimed 0 (IVCSession.init z0).instances = true ↔
        claimed = z0) ∧
    Nova_verify [(1 : F), 0] [1, 0] 0
      (IVCSession.init [(1 : F), 0]).instances = true := by
  constructor
  · intro z0 claimed
    simp [Nova_verify, IVCSession.init, IVCSession.instances, eq_comm]
  · simp [Nova_verify, IVCSession.init, IVCSession.instances]

/-- Witness for C6 at a concrete instantiation. -/
theorem C6_zero_step_verify_witness :
    Nova_verify [(1 : Nat), 0] [1, 0] 0
      (IVCSession.init [(1 : Nat), 0]).instances = true :=
  (C6_zero_step_verify (F := Nat)).2

/-- C7.  In the concrete scenario (state [1, 2], total hash): after 10
advances the session's `state()` equals 10 native iterations of
`step_native` from [1, 2]; `verify` against the session's instance snapshot
succeeds with claimed step count 10 and fails with claimed step count 9. -/
theorem C7_ten_step_scenario {F Config : Type} [AddMonoidWithOne F]
    [DecidableEq F] (crh : Config → F → F → Option F)
    (self : ExternalInputsCircuits Config)
    (htotal : ∀ a b, (crh self.poseidon_config a b).isSome = true) :
    ∃ s : IVCSession F,
      IVCSession.prove_steps crh self 10 (IVCSession.init [1, 2]) = .ok s ∧
      iterate_step_native crh self 10 [(1 : F), 2] = .ok s.state ∧
      Nova_verify [(1 : F), 2] s.state 10 s.instances = true ∧
      Nova_verify [(1 : F), 2] s.state 9 s.instances = false := by
  rcases prove_steps_ok_of_total crh self htotal 10
      (IVCSession.init [(1 : F), 2]) rfl with ⟨s, hrun, hz0, hi, _, hiter⟩
  refine ⟨s, hrun, hiter, ?_, ?_⟩
  · simp [Nova_verify, IVCSession.state, IVCSession.instances, hz0, hi,
      IVCSession.init]
  · simp [Nova_verify, IVCSession.state, IVCSession.instances, hi,
      IVCSession.init]

/-- Witness for C7 at a concrete instantiation. -/
theorem C7_ten_step_scenario_witness :
    ∃ s : IVCSession Nat,
      IVCSession.prove_steps (fun _ a b => some (a + b)) ⟨()⟩ 10
        (IVCSession.init [1, 2]) = .ok s ∧
      iterate_step_native (fun _ a b => some (a + b)) ⟨()⟩ 10
        [(1 : Nat), 2] = .ok s.state ∧
      Nova_verify [(1 : Nat), 2] s.state 10 s.instances = true ∧
      Nova_verify [(1 : Nat), 2] s.state 9 s.instances = false :=
  C7_ten_step_scenario (fun (_ : Unit) (a b : Nat) => some (a + b)) ⟨()⟩
    (fun _ _ => rfl)

/-- C8.  `Protocol.render` dispatches by an exhaustive match over the closed
three-variant enumeration; it never aborts, returns rendered bytes exactly
when the selected variant's deserializer accepts the input, and returns an
error exactly when that deserialization fails. -/
theorem C8_render_dispatch {Bytes G K N : Type}
    (g16 : ProtocolDataImpl Bytes G) (kzg : ProtocolDataImpl Bytes K)
    (nova : ProtocolDataImpl Bytes N) (p : Protocol) (data : Bytes)
    (pragma : Option String) :
    (p = .Groth16 ∨ p = .Kzg ∨ p = .NovaCyclefold) ∧
    (Protocol.render g16 kzg nova p data pragma ≠ .panic) ∧
    ((∃ out, Protocol.render g16 kzg nova p data pragma = .ok out) ↔
      Protocol.deser_ok g16 kzg nova p data) ∧
    (Protocol.render g16 kzg nova p data pragma = .err ↔
      ¬ Protocol.deser_ok g16 kzg nova p data) := by
  cases p
  · rcases hd : g16.deserialize_protocol_data data with _ | d <;>
      simp [Protocol.render, Protocol.deser_ok, hd]
  · rcases hd : kzg.deserialize_protocol_data data with _ | d <;>
      simp [Protocol.render, Protocol.deser_ok, hd]
  · rcases hd : nova.deserialize_protocol_data data with _ | d <;>
      simp [Protocol.render, Protocol.deser_ok, hd]

/-- Witness for C8 at a concrete instantiation. -/
theorem C8_render_dispatch_witness :
    Protocol.render
      (⟨fun d => if d = [0] then some () else none, fun _ _ => [1]⟩ :
        ProtocolDataImpl (List Nat) Unit)
      (⟨fun _ => some (), fun _ _ => [2]⟩ : ProtocolDataImpl (List Nat) Unit)
      (⟨fun _ => some (), fun _ _ => [3]⟩ : ProtocolDataImpl (List Nat) Unit)
      .Groth16 [7] none = .err :=
  (C8_render_dispatch
      (⟨fun d => if d = [0] then some () else none, fun _ _ => [1]⟩ :
        ProtocolDataImpl (List Nat) Unit)
      (⟨fun _ => some (), fun _ _ => [2]⟩ : ProtocolDataImpl (List Nat) Unit)
      (⟨fun _ => some (), fun _ _ => [3]⟩ : ProtocolDataImpl (List Nat) Unit)
      .Groth16 [7] none).2.2.2.mpr (by simp [Protocol.deser_ok])

/-- C10.  When no output path is supplied, the CLI's `out` argument resolves
to the declared default: the current working directory with the single
component "verifier.sol" pushed onto it. -/
theorem C10_default_out_path (current_dir : List String) :
    cli_out current_dir none = current_dir ++ ["verifier.sol"] :=
  rfl

/-- Witness for C10 at a concrete instantiation. -/
theorem C10_default_out_path_witness :
    cli_out ["home", "user"] none = ["home", "user", "verifier.sol"] :=
  C10_default_out_path ["home", "user"]

end Sonobe
